import Mathlib

/-!
Verification development for the render-service pipeline of this repository
(src/services/geminiService.ts and the supabase client module).

The TypeScript source is shallowly embedded: thrown JavaScript values are a
small JSON-like inductive, effectful remote operations become outcome streams
indexed by attempt number, the supabase collaborator becomes an explicit
client value, and each exported function of the service module becomes an
executable Lean definition mirroring the source line by line.
-/

/- ===== JavaScript error values =====
Thrown values are modelled as JSON-like data.  Notes on the model:
only string messages are modelled (the source would crash calling
String.includes on a truthy non-string message), and stringification
escapes quotes and backslashes only. -/

mutual

inductive JsValue where
  | null : JsValue
  | num (n : Int) : JsValue
  | str (s : String) : JsValue
  | obj (fields : JsFields) : JsValue

inductive JsFields where
  | nil : JsFields
  | fcons (k : String) (v : JsValue) (rest : JsFields) : JsFields

end

def getFieldAux : JsFields → String → Option JsValue
  | .nil, _ => none
  | .fcons k v rest, key => if k = key then some v else getFieldAux rest key

/-- Field access e.k on a JavaScript value: none when absent or when the
value is not an object (optional chaining never throws in the source). -/
def getField : JsValue → String → Option JsValue
  | .obj fs, key => getFieldAux fs key
  | _, _ => none

/-- Optional chain e.k1.k2 as in the source expression e.error.code. -/
def getField2 (e : JsValue) (k1 k2 : String) : Option JsValue :=
  match getField e k1 with
  | some v => getField v k2
  | none => none

def jsEscapeChar (c : Char) : String :=
  if c = '"' then "\\\"" else if c = '\\' then "\\\\" else String.singleton c

def jsEscape (s : String) : String :=
  String.join (s.data.map jsEscapeChar)

mutual

/-- JSON.stringify on the modelled values. -/
def jsStringify : JsValue → String
  | .null => "null"
  | .num n => toString n
  | .str s => "\"" ++ jsEscape s ++ "\""
  | .obj fs => "\x7b" ++ jsStringifyFields fs ++ "\x7d"

def jsStringifyFields : JsFields → String
  | .nil => ""
  | .fcons k v .nil => "\"" ++ jsEscape k ++ "\":" ++ jsStringify v
  | .fcons k v (.fcons k2 v2 rest) =>
      "\"" ++ jsEscape k ++ "\":" ++ jsStringify v ++ "," ++
        jsStringifyFields (.fcons k2 v2 rest)

end

/-- Matching a leading run of characters. -/
def leadMatch : List Char → List Char → Bool
  | [], _ => true
  | _ :: _, [] => false
  | a :: as, b :: bs => a == b && leadMatch as bs

/-- Contiguous sublist search over characters. -/
def hasSubList (pat : List Char) : List Char → Bool
  | [] => leadMatch pat []
  | b :: bs => leadMatch pat (b :: bs) || hasSubList pat bs

/-- The String.prototype.includes test used by the source. -/
def strIncludes (s pat : String) : Bool :=
  hasSubList pat.data s.data

/-- The nonempty string message of a thrown value, if any: e.message is
used only when it is a truthy string. -/
def messageStr (e : JsValue) : Option String :=
  match getField e "message" with
  | some (.str s) => if s = "" then none else some s
  | _ => none

/-- The msg binding of callWithRetry: e.message when truthy, otherwise
JSON.stringify(e). -/
def jsMsg (e : JsValue) : String :=
  match messageStr e with
  | some s => s
  | none => jsStringify e

/-- Textual overload markers searched by the source. -/
def hasMarker (s : String) : Bool :=
  strIncludes s "overloaded" || strIncludes s "503"

def fieldNum503 (e : JsValue) (k : String) : Bool :=
  match getField e k with
  | some (.num n) => n == 503
  | _ => false

def nestedCode503 (e : JsValue) : Bool :=
  match getField2 e "error" "code" with
  | some (.num n) => n == 503
  | _ => false

def nestedStatusUnavailable (e : JsValue) : Bool :=
  match getField2 e "error" "status" with
  | some (.str s) => s == "UNAVAILABLE"
  | _ => false

/-- The isLoadError classification inside callWithRetry
(geminiService.ts lines 20-29), in source order. -/
def isLoadError (e : JsValue) : Bool :=
  hasMarker (jsMsg e) ||
  fieldNum503 e "status" ||
  fieldNum503 e "code" ||
  nestedCode503 e ||
  nestedStatusUnavailable e

/- ===== callWithRetry (geminiService.ts lines 13-41) =====
The effectful operation fn is modelled as a stream of outcomes: fn i is the
outcome of its (i+1)-th invocation.  The returned record exposes the final
result, the number of invocations performed, and the list of sleep durations
in order. -/

structure RetryOutcome (T : Type) where
  result : Except JsValue T
  calls : Nat
  delays : List Nat

/-- Loop body of callWithRetry.  The index i is the loop counter; remaining
is retries - i, carried structurally for termination.  The final branch
models throw lastError after the loop (unreachable when retries ≥ 1). -/
def callWithRetryGo {T : Type} (fn : Nat → Except JsValue T) (retries : Nat) :
    Nat → Nat → Nat → List Nat → Option JsValue → RetryOutcome T
  | i, 0, _, ds, lastError =>
      { result := .error (lastError.getD .null), calls := i, delays := ds }
  | i, rem + 1, delay, ds, _ =>
      match fn i with
      | .ok v => { result := .ok v, calls := i + 1, delays := ds }
      | .error e =>
          if isLoadError e = true ∧ i < retries - 1 then
            callWithRetryGo fn retries (i + 1) rem (delay * 2) (ds ++ [delay]) (some e)
          else
            { result := .error e, calls := i + 1, delays := ds }

/-- The retry helper for 503 errors.  The source defaults are retries = 5,
delay = 3000. -/
def callWithRetry {T : Type} (fn : Nat → Except JsValue T)
    (retries : Nat) (delay : Nat) : RetryOutcome T :=
  callWithRetryGo fn retries 0 retries delay [] none

/- ===== Data model =====
RenderRecord mirrors one row of the render_history relation as used by the
source queries (id, category, style, master_prompt, rating, feedback_tags,
created_at). -/

structure RenderRecord where
  id : String
  category : String
  style : String
  master_prompt : String
  rating : Option Nat
  feedback_tags : Option (List String)
  created_at : Nat

structure LearningContext where
  examples : String
  constraints : String

/-- One row returned by an insert chain ending in single(). -/
structure SingleRow where
  id : String

/-- The postgrest response shape destructured by the source:
a data object and an error, either of which may be null. -/
structure SingleResult where
  data : Option SingleRow
  error : Option String

/- ===== The supabase collaborator =====
The module-level supabase client (src/unnamed/part_000) is passed to each
service function explicitly.  A connected client carries the current
render_history rows, from which the source select chains are computed; its
insert and update responses come from the external datastore and are carried
as parameters.  A failing client models a client whose awaited chains throw.
offlineMock is the Proxy-based mock built when credentials are missing:
awaited chains resolve to data [] and error null, and single() resolves to
data with id offline-mode-id and error null. -/

inductive SupabaseClient where
  | connected (db : List RenderRecord) (insertResponse : SingleResult)
      (updateError : Option String)
  | failing (msg : String)
  | offlineMock

/-- Filter of the positive query (category and style equal, rating = 5). -/
def posPred (category style : String) (r : RenderRecord) : Bool :=
  decide (r.category = category ∧ r.style = style ∧ r.rating = some 5)

/-- The rating strictly below three test: lt on a null rating excludes
the row, as in SQL. -/
def ratingBelowThree : Option Nat → Bool
  | some v => decide (v < 3)
  | none => false

/-- Filter of the negative query (category equal, rating < 3, tags not null). -/
def negPred (category : String) (r : RenderRecord) : Bool :=
  decide (r.category = category) && ratingBelowThree r.rating &&
    decide (r.feedback_tags ≠ none)

/-- Descending creation time, the order of the positive query. -/
def recentFirst (a b : RenderRecord) : Prop :=
  b.created_at ≤ a.created_at

instance : DecidableRel recentFirst :=
  fun a b => inferInstanceAs (Decidable (b.created_at ≤ a.created_at))

instance : IsTotal RenderRecord recentFirst :=
  ⟨fun a b => Nat.le_total b.created_at a.created_at⟩

instance : IsTrans RenderRecord recentFirst :=
  ⟨fun _ _ _ hab hbc => Nat.le_trans hbc hab⟩

/-- All matching rows of the positive select, ordered by created_at
descending (ties resolved by sort stability, unspecified in the source). -/
def sortedPositives (db : List RenderRecord) (category style : String) :
    List RenderRecord :=
  List.insertionSort recentFirst (db.filter (posPred category style))

/-- The positive query: limit 3 after ordering. -/
def positiveQuery (db : List RenderRecord) (category style : String) :
    List RenderRecord :=
  (sortedPositives db category style).take 3

/-- The negative query: limit 10, no ordering clause in the source (the
row order of the datastore response is modelled as table order). -/
def negativeQuery (db : List RenderRecord) (category : String) :
    List RenderRecord :=
  (db.filter (negPred category)).take 10

/-- Running the positive select chain on a client.  A connected client
returns the selected master_prompt column values. -/
def runPositive (client : SupabaseClient) (category style : String) :
    Except String (Option (List String)) :=
  match client with
  | .connected db _ _ =>
      .ok (some ((positiveQuery db category style).map RenderRecord.master_prompt))
  | .failing m => .error m
  | .offlineMock => .ok (some [])

/-- Running the negative select chain on a client, selecting the
feedback_tags column. -/
def runNegative (client : SupabaseClient) (category : String) :
    Except String (Option (List (Option (List String)))) :=
  match client with
  | .connected db _ _ =>
      .ok (some ((negativeQuery db category).map RenderRecord.feedback_tags))
  | .failing m => .error m
  | .offlineMock => .ok (some [])

/-- Insertion-order deduplication, the behaviour of Array.from(new Set(l)). -/
def jsSetDedupAux (seen : List String) : List String → List String
  | [] => []
  | a :: l => if a ∈ seen then jsSetDedupAux seen l else a :: jsSetDedupAux (a :: seen) l

def jsSetDedup (l : List String) : List String :=
  jsSetDedupAux [] l

def exampleSep : String := "\n--- EXAMPLE ---\n"

/-- Body of getLearningContext before its catch (geminiService.ts 48-77). -/
def getLearningContextE (client : SupabaseClient) (category style : String) :
    Except String LearningContext :=
  match runPositive client category style with
  | .error m => .error m
  | .ok positive =>
    match runNegative client category with
    | .error m => .error m
    | .ok negative =>
      let allNegativeTags := (negative.getD []).flatMap (fun n => n.getD [])
      let commonComplaints := jsSetDedup allNegativeTags
      .ok { examples := (positive.map (String.intercalate exampleSep)).getD ""
            constraints := String.intercalate ", " (commonComplaints.take 5) }

/-- getLearningContext with its catch: any thrown failure degrades to the
empty context. -/
def getLearningContext (client : SupabaseClient) (category style : String) :
    LearningContext :=
  match getLearningContextE client category style with
  | .ok ctx => ctx
  | .error _ => { examples := "", constraints := "" }

/-- The distinct negative tags for a connected client, before the limit 5. -/
def commonComplaintsOf (db : List RenderRecord) (category : String) :
    List String :=
  jsSetDedup (((negativeQuery db category).map RenderRecord.feedback_tags).flatMap
    (fun n => n.getD []))

/-- The constraint tag list: first 5 distinct negative tags. -/
def constraintsList (db : List RenderRecord) (category : String) : List String :=
  (commonComplaintsOf db category).take 5

/-- Running the insert chain of saveRenderHistory on a client. -/
def runInsertSingle (client : SupabaseClient) (_options : Unit)
    (_masterPrompt : String) : Except String SingleResult :=
  match client with
  | .connected _ insertResponse _ => .ok insertResponse
  | .failing m => .error m
  | .offlineMock => .ok { data := some { id := "offline-mode-id" }, error := none }

/-- saveRenderHistory (geminiService.ts 87-108): insert a fresh row, return
data.id; any thrown error or reported error degrades to null.  The inserted
column values (category, style, master_prompt, null rating) do not affect
the returned identifier and the connected datastore response is a client
parameter, so the options are not inspected here. -/
def saveRenderHistory (client : SupabaseClient) (masterPrompt : String) :
    Option String :=
  match runInsertSingle client () masterPrompt with
  | .error _ => none
  | .ok res =>
    match res.error with
    | some _ => none
    | none =>
      match res.data with
      | some row => some row.id
      | none => none

/-- Running the update chain of submitFeedback on a client: the value is the
error field of the awaited response. -/
def runUpdate (client : SupabaseClient) (_renderId : String) (_rating : Nat)
    (_tags : List String) : Except String (Option String) :=
  match client with
  | .connected _ _ updateError => .ok updateError
  | .failing m => .error m
  | .offlineMock => .ok none

/-- submitFeedback (geminiService.ts 113-123): no catch — a thrown chain
failure propagates, a reported error is rethrown, otherwise it resolves. -/
def submitFeedback (client : SupabaseClient) (renderId : String) (rating : Nat)
    (tags : List String) : Except String Unit :=
  match runUpdate client renderId rating tags with
  | .error m => .error m
  | .ok (some e) => .error e
  | .ok none => .ok ()

/- ===== Render options and the empowerment prompt ===== -/

/-- The option fields read by the service functions.  hiddenAIContext is a
string whose truthiness is tested, so empty means absent. -/
structure RenderOptions where
  category : String
  style : String
  colorPalette : String
  surfaceMaterial : String
  textileMaterial : String
  textileColor1 : String
  textileColor2 : String
  additionalPrompt : String
  hiddenAIContext : String
  isAutoFocus : Bool
  cameraPreset : String

def categoryDirective : String :=
  "- PHÂN TÍCH CẤU TRÚC GỐC: Nhận diện chính xác vị trí các vật thể hiện hữu. Tuyệt đối không thêm thắt các khối kiến trúc làm thay đổi bố cục gốc."

def styleDirective : String :=
  "- TRÍCH XUẤT PHONG CÁCH: Phân tích các đường nét kiến trúc sẵn có trong ảnh (ví dụ: phào chỉ cổ điển, nét thẳng hiện đại) để render vật liệu đồng nhất với ngôn ngữ đó."

def paletteDirective : String :=
  "- BẢO TỒN BẢNG MÀU (STRICT COLOR MATCH): Thực hiện lấy mẫu màu trực tiếp từ hình ảnh gốc."

def surfaceDirective : String :=
  "- NÂNG CẤP VẬT LIỆU THỰC TẾ: Xác định vật liệu hiện có và làm nét vân bề mặt."

def textileDirective : String :=
  "- TỐI ƯU VẬT LIỆU VẢI: Phân tích các loại vải hiện có và nâng cấp chúng lên chất liệu cao cấp."

def textileColor1Directive : String :=
  "- TỐI ƯU MÀU SẮC CHÍNH VẢI: AI sẽ chọn màu sắc chính hài hòa."

def textileColor2Directive : String :=
  "- TỐI ƯU MÀU SẮC PHỤ VẢI: AI sẽ chọn màu sắc phụ hài hòa."

/-- The autoInstructions list of getEmpowermentPrompt (geminiService.ts
180-201), with the source guards: the two textile colour directives fire
only when textileMaterial is not none. -/
def empowermentDirectives (selections : RenderOptions) : List String :=
  (if selections.category = "none" then [categoryDirective] else []) ++
  (if selections.style = "none" then [styleDirective] else []) ++
  (if selections.colorPalette = "none" then [paletteDirective] else []) ++
  (if selections.surfaceMaterial = "none" then [surfaceDirective] else []) ++
  (if selections.textileMaterial = "none" then [textileDirective] else []) ++
  (if selections.textileMaterial ≠ "none" ∧ selections.textileColor1 = "none"
    then [textileColor1Directive] else []) ++
  (if selections.textileMaterial ≠ "none" ∧ selections.textileColor2 = "none"
    then [textileColor2Directive] else [])

def strictHeader : String :=
  "\n--- CHẾ ĐỘ AI TUÂN THỦ TỐI ĐA (STRICT ADHERENCE MODE) ---\nNhiệm vụ của bạn là \x27Diễn họa phục hồi\x27. Hãy coi hình ảnh gốc là tiêu chuẩn vàng về màu sắc và vật liệu:\n"

def strictFooter : String :=
  "\nMỤC TIÊU: Tạo ra bản render 8k siêu thực nhưng khi đặt cạnh ảnh gốc, người xem phải thấy sự đồng nhất 100% về màu sắc và linh hồn của vật liệu.\n-------------------------------------------------------\n  "

/-- getEmpowermentPrompt (geminiService.ts 179-211). -/
def getEmpowermentPrompt (selections : RenderOptions) : String :=
  let autoInstructions := empowermentDirectives selections
  if autoInstructions = [] then ""
  else strictHeader ++ String.intercalate "\n" autoInstructions ++ strictFooter

/- ===== Prompt assembly and the main render pipeline ===== -/

def WEDDING_FLORALS : String :=
  "high-density fresh white hydrangeas and roses, hanging wisteria, lush greenery"

def WEDDING_LIGHTING : String :=
  "cinematic volumetric lighting, warm amber ambient glow, professional stage spotlights, Tyndall effect"

/-- Modelled from the spec: the structural-fidelity directive constant
imported from ../constants, a file absent from src. -/
def STRUCTURE_FIDELITY_PROMPT : String :=
  "Preserve the structural layout and composition of the source image exactly."

/-- Modelled from the spec: the quality and material-realism closing
directive constant imported from ../constants, absent from src. -/
def REALISM_MODIFIERS : String :=
  "8k photorealistic output with authentic material response"

structure PhotoPreset where
  prompt : String

/-- Modelled from the spec: the named photography preset table imported
from ../constants, absent from src; CINEMATIC is the default preset the
source falls back to. -/
def PHOTOGRAPHY_PRESETS (key : String) : Option PhotoPreset :=
  if key = "CINEMATIC" then some { prompt := "cinematic wedding photography settings" }
  else none

def CINEMATIC_PRESET : PhotoPreset :=
  { prompt := "cinematic wedding photography settings" }

def autoFocusPrompt : String :=
  "AI AUTOMATIC FOCUS: Identify the most prominent decorative element and apply a sharp photographic focus to it, creating a natural depth of field."

def manualFocusPrompt : String :=
  "MANUAL FOCUS: Keep the sharpness consistent across the designated focal area."

/-- generateRenderPrompt (geminiService.ts 239-264). -/
def generateRenderPrompt (basePrompt style : String) (isAutoFocus : Bool)
    (presetKey : String) : String :=
  let preset := match PHOTOGRAPHY_PRESETS presetKey with
    | some p => p
    | none => CINEMATIC_PRESET
  let focusPrompt := if isAutoFocus then autoFocusPrompt else manualFocusPrompt
  "\n    IMAGE TYPE: Wedding Design Render.\n    CORE INSTRUCTION: " ++
    STRUCTURE_FIDELITY_PROMPT ++ "\n    \n    SUBJECT DESCRIPTION: " ++
    basePrompt ++ ".\n    VISUAL STYLE: " ++ style ++
    ".\n    PHOTOGRAPHY SETTINGS: " ++ preset.prompt ++
    ".\n    FOCUS CONTROL: " ++ focusPrompt ++
    ".\n    \n    QUALITY STANDARDS: " ++ REALISM_MODIFIERS ++
    ".\n    \n    FINAL NOTE: Ensure the materials like glass, silk, and flowers look authentic under the specified lighting.\n  "

/-- The textile material and colour phrase (geminiService.ts 288-300). -/
def textileDetails (options : RenderOptions) : String :=
  if options.textileMaterial ≠ "none" then
    options.textileMaterial ++
      (if options.textileColor1 ≠ "none" ∧ options.textileColor2 ≠ "none" then
        " in a primary color of " ++ options.textileColor1 ++
          " and a secondary color of " ++ options.textileColor2
      else if options.textileColor1 ≠ "none" then
        " in " ++ options.textileColor1
      else if options.textileColor2 ≠ "none" then
        " with accents of " ++ options.textileColor2
      else "")
  else "appropriate luxury fabrics and draping based on context"

/-- The baseDescription template (geminiService.ts 302-313). -/
def baseDescription (options : RenderOptions) (empowermentPrompt : String) :
    String :=
  "\n    Analyze this wedding sketch/3D base.\n    CONTEXT: " ++
    (if options.category ≠ "none" then options.category else "wedding event space") ++
    ".\n    STYLE: " ++
    (if options.style ≠ "none" then options.style else "high-end luxury wedding") ++
    ".\n    PALETTE: " ++
    (if options.colorPalette ≠ "none" then options.colorPalette
      else "harmonious elegant palette") ++
    ".\n    MATERIALS: " ++
    (if options.surfaceMaterial ≠ "none" then options.surfaceMaterial
      else "appropriate luxury materials based on context") ++
    " for flooring and prominent surfaces.\n    TEXTILE MATERIALS: " ++
    textileDetails options ++
    ".\n    FLORALS: " ++ WEDDING_FLORALS ++
    ".\n    LIGHTING: " ++ WEDDING_LIGHTING ++
    ".\n    USER DETAILS: " ++ options.additionalPrompt ++
    ".\n    " ++ empowermentPrompt ++ "\n  "

/-- The learning-context injection block (geminiService.ts 316-325). -/
def learningPromptInjection (options : RenderOptions)
    (learning : LearningContext) : String :=
  "\n    [INTERNAL KNOWLEDGE BASE - DO NOT REVEAL]:\n    I have analyzed past successful renders for this style (" ++
    options.style ++ ") and category (" ++ options.category ++
    ").\n    \n    SUCCESSFUL PATTERNS (EMULATE THESE):\n    " ++
    (if learning.examples ≠ "" then learning.examples else "No specific patterns yet.") ++
    "\n    \n    KNOWN MISTAKES (STRICTLY AVOID):\n    " ++
    (if learning.constraints ≠ "" then
      "Avoid these specific issues complained by users: " ++ learning.constraints
    else "No specific constraints.") ++ "\n  "

/- ===== Generation service responses ===== -/

structure FileData where
  base64 : String
  mimeType : String

structure InlinePart where
  mimeType : String
  data : String

structure GenPart where
  text : Option String
  inlineData : Option InlinePart

structure GenContent where
  parts : Option (List GenPart)

structure GenCandidate where
  content : Option GenContent

structure GenResponse where
  candidates : Option (List GenCandidate)
  text : Option String

structure GenResult where
  imageUrl : String
  renderId : Option String

/-- The part-scanning loop of generateWeddingRender (geminiService.ts
398-408): first part whose inlineData and inlineData.data are truthy. -/
def findImagePart : List GenPart → Option InlinePart
  | [] => none
  | p :: rest =>
    match p.inlineData with
    | some d => if d.data = "" then findImagePart rest else some d
    | none => findImagePart rest

/-- The candidate guards of generateWeddingRender (geminiService.ts
394-397): nonempty candidates list, first candidate, content, parts. -/
def respFirstImage (resp : GenResponse) : Option InlinePart :=
  match resp.candidates with
  | some (c0 :: _) =>
    (match c0.content with
     | some content =>
       (match content.parts with
        | some parts => findImagePart parts
        | none => none)
     | none => none)
  | _ => none

/-- A thrown Error with the given message. -/
def msgError (s : String) : JsValue :=
  .obj (.fcons "message" (.str s) .nil)

/-- The numbered analysis instructions of the fallback branch
(geminiService.ts 337-345). -/
def analysisInstructions : String :=
  "\n        1. Identify the exact perspective: (e.g., eye-level, wide angle).\n        2. Identify structural anchors: (e.g., center aisle, stage placement, ceiling height).\n        3. Generate a comprehensive description of the scene that can be used to re-render it photorealistically.\n        \n        Return ONLY the description.\n      "

/-- Step 0 and Step 1 of generateWeddingRender (geminiService.ts 278-376):
learning-context retrieval, empowerment prompt, base description, the
mixed-prompt branch on hiddenAIContext and the fallback reasoning call
(whose failure is caught and degrades to the basic prompt), yielding the
master prompt.  The flash model is an outcome stream taking the sent
prompt and the attempt index. -/
def buildMasterPrompt (flash : String → Nat → Except JsValue GenResponse)
    (client : SupabaseClient) (options : RenderOptions) : String :=
  let learning := getLearningContext client options.category options.style
  let empowermentPrompt := getEmpowermentPrompt options
  let base := baseDescription options empowermentPrompt
  let inj := learningPromptInjection options learning
  if options.hiddenAIContext ≠ "" then
    generateRenderPrompt
      (base ++ "\n" ++ inj ++ "\nCONTEXTUAL ANALYSIS FROM SOURCE: " ++
        options.hiddenAIContext)
      options.style options.isAutoFocus options.cameraPreset
  else
    let analysisPrompt := "\n        " ++ base ++ "\n        " ++ inj ++
      analysisInstructions
    match (callWithRetry (flash analysisPrompt) 5 3000).result with
    | .ok reasoningResponse =>
      let sceneDescription :=
        match reasoningResponse.text with
        | some t => if t = "" then base else t
        | none => base
      generateRenderPrompt sceneDescription options.style options.isAutoFocus
        options.cameraPreset
    | .error _ =>
      generateRenderPrompt base options.style options.isAutoFocus
        options.cameraPreset

/-- generateWeddingRender (geminiService.ts 268-417).  The two remote
models are outcome streams taking the sent prompt and the attempt index;
hasApiKey models the presence of process.env.API_KEY. -/
def generateWeddingRender (hasApiKey : Bool)
    (flash : String → Nat → Except JsValue GenResponse)
    (render : String → Nat → Except JsValue GenResponse)
    (client : SupabaseClient) (_sourceImage : FileData)
    (options : RenderOptions) : Except JsValue GenResult :=
  if hasApiKey = false then
    .error (msgError "API Key is missing. Please set REACT_APP_GEMINI_API_KEY or process.env.API_KEY")
  else
    let masterPrompt := buildMasterPrompt flash client options
    match (callWithRetry (render masterPrompt) 5 3000).result with
    | .error e => .error e
    | .ok renderResponse =>
      match respFirstImage renderResponse with
      | some d =>
        .ok { imageUrl := "data:" ++ d.mimeType ++ ";base64," ++ d.data
              renderId := saveRenderHistory client masterPrompt }
      | none => .error (msgError "No image generated in the response.")

/- ===== Helper lemmas about callWithRetry ===== -/

theorem delaysShift (delay n : Nat) (ds : List Nat) :
    (ds ++ [delay]) ++ (List.range n).map (fun k => delay * 2 * 2 ^ k)
      = ds ++ (List.range (n + 1)).map (fun k => delay * 2 ^ k) := by
  rw [List.append_assoc]
  congr 1
  rw [List.range_succ_eq_map, List.map_cons, List.map_map]
  have h1 : (List.range n).map ((fun k => delay * 2 ^ k) ∘ Nat.succ)
      = (List.range n).map (fun k => delay * 2 * 2 ^ k) := by
    apply List.map_congr_left
    intro k _
    simp only [Function.comp]
    rw [Nat.pow_succ]
    ring
  rw [h1]
  simp

theorem callWithRetryGo_succeeds {T : Type} (fn : Nat → Except JsValue T)
    (retries : Nat) (v : T) :
    ∀ (n i delay : Nat) (ds : List Nat) (le : Option JsValue),
      i + n < retries →
      (∀ j, j < n → ∃ e, fn (i + j) = .error e ∧ isLoadError e = true) →
      fn (i + n) = .ok v →
      callWithRetryGo fn retries i (retries - i) delay ds le =
        { result := .ok v, calls := i + n + 1,
          delays := ds ++ (List.range n).map (fun k => delay * 2 ^ k) } := by
  intro n
  induction n with
  | zero =>
    intro i delay ds le hlt _ hok
    obtain ⟨m, hm⟩ : ∃ m, retries - i = m + 1 := ⟨retries - i - 1, by omega⟩
    rw [hm]
    simp [callWithRetryGo, show fn i = .ok v by simpa using hok]
  | succ n ih =>
    intro i delay ds le hlt hfail hok
    obtain ⟨m, hm⟩ : ∃ m, retries - i = m + 1 := ⟨retries - i - 1, by omega⟩
    rw [hm]
    obtain ⟨e, he, hle⟩ := hfail 0 (Nat.succ_pos n)
    rw [Nat.add_zero] at he
    have hcond : isLoadError e = true ∧ i < retries - 1 := ⟨hle, by omega⟩
    simp only [callWithRetryGo, he, if_pos hcond]
    have hm2 : m = retries - (i + 1) := by omega
    rw [hm2]
    have hrec := ih (i + 1) (delay * 2) (ds ++ [delay]) (some e)
      (by omega)
      (by
        intro j hj
        have := hfail (j + 1) (by omega)
        have harith : i + 1 + j = i + (j + 1) := by omega
        rw [harith]
        exact this)
      (by
        have harith : i + 1 + n = i + (n + 1) := by omega
        rw [harith]
        exact hok)
    rw [hrec, delaysShift]
    have harith : i + 1 + n + 1 = i + (n + 1) + 1 := by omega
    rw [harith]

theorem callWithRetryGo_all_fail {T : Type} (fn : Nat → Except JsValue T)
    (retries : Nat) (errs : Nat → JsValue) :
    ∀ (m i delay : Nat) (ds : List Nat) (le : Option JsValue),
      i + (m + 1) = retries →
      (∀ j, j < m + 1 →
        fn (i + j) = .error (errs (i + j)) ∧ isLoadError (errs (i + j)) = true) →
      callWithRetryGo fn retries i (retries - i) delay ds le =
        { result := .error (errs (retries - 1)), calls := retries,
          delays := ds ++ (List.range m).map (fun k => delay * 2 ^ k) } := by
  intro m
  induction m with
  | zero =>
    intro i delay ds le hi hfail
    obtain ⟨he, hle⟩ := hfail 0 (Nat.lt_succ_self 0)
    rw [Nat.add_zero] at he hle
    have hrem : retries - i = 1 := by omega
    rw [hrem]
    have hcond : ¬ (isLoadError (errs i) = true ∧ i < retries - 1) := by
      intro h
      omega
    simp only [callWithRetryGo, he, if_neg hcond, List.range_zero, List.map_nil,
      List.append_nil]
    rw [show i = retries - 1 from by omega,
      show retries - 1 + 1 = retries from by omega]
  | succ m ih =>
    intro i delay ds le hi hfail
    obtain ⟨he, hle⟩ := hfail 0 (Nat.succ_pos (m + 1))
    rw [Nat.add_zero] at he hle
    obtain ⟨w, hw⟩ : ∃ w, retries - i = w + 1 := ⟨retries - i - 1, by omega⟩
    rw [hw]
    have hcond : isLoadError (errs i) = true ∧ i < retries - 1 := ⟨hle, by omega⟩
    simp only [callWithRetryGo, he, if_pos hcond]
    have hw2 : w = retries - (i + 1) := by omega
    rw [hw2]
    have hrec := ih (i + 1) (delay * 2) (ds ++ [delay]) (some (errs i))
      (by omega)
      (by
        intro j hj
        have := hfail (j + 1) (by omega)
        have harith : i + 1 + j = i + (j + 1) := by omega
        rw [harith]
        exact this)
    rw [hrec, delaysShift]

/- ===== C3, C4, C5: the Resilient Invoker contract ===== -/

/-- C3: if the operation fails with a transient error on its first N-1
invocations and succeeds on the N-th (1 ≤ N ≤ retries), callWithRetry calls
it exactly N times, returns the successful value, and sleeps exactly N-1
times with durations initialDelay, 2·initialDelay, …, 2^(N-2)·initialDelay
in order; N = 1 gives one call and no delay. -/
theorem callWithRetry_transient_then_success {T : Type}
    (fn : Nat → Except JsValue T) (retries initialDelay N : Nat) (v : T)
    (hN1 : 1 ≤ N) (hN2 : N ≤ retries)
    (hfail : ∀ j, j < N - 1 → ∃ e, fn j = .error e ∧ isLoadError e = true)
    (hok : fn (N - 1) = .ok v) :
    callWithRetry fn retries initialDelay =
      { result := .ok v, calls := N,
        delays := (List.range (N - 1)).map (fun k => initialDelay * 2 ^ k) } := by
  have h := callWithRetryGo_succeeds fn retries v (N - 1) 0 initialDelay [] none
    (by omega)
    (by intro j hj; simpa using hfail j hj)
    (by simpa using hok)
  unfold callWithRetry
  rw [Nat.sub_zero] at h
  rw [h]
  simp
  omega

/-- Witness operation for C3: transient failures on the first two attempts,
success on the third. -/
def retryWitnessFn : Nat → Except JsValue Nat := fun i =>
  if i < 2 then .error (msgError "overloaded") else .ok 42

/-- Witness for C3 at N = 3, retries = 5, initialDelay = 3000. -/
theorem callWithRetry_transient_then_success_witness :
    callWithRetry retryWitnessFn 5 3000 =
      { result := .ok 42, calls := 3, delays := [3000, 6000] } := by
  rw [callWithRetry_transient_then_success retryWitnessFn 5 3000 3 42
    (by decide) (by decide)
    (by
      intro j hj
      refine ⟨msgError "overloaded", ?_, by decide⟩
      interval_cases j <;> rfl)
    rfl]
  rfl

/-- C4: if the operation fails with a transient error on every attempt,
callWithRetry calls it exactly retries times and then propagates the error
observed on the final attempt (and sleeps retries - 1 times). -/
theorem callWithRetry_exhausts_transient {T : Type}
    (fn : Nat → Except JsValue T) (retries initialDelay : Nat)
    (errs : Nat → JsValue) (hr : 1 ≤ retries)
    (hfail : ∀ j, j < retries →
      fn j = .error (errs j) ∧ isLoadError (errs j) = true) :
    callWithRetry fn retries initialDelay =
      { result := .error (errs (retries - 1)), calls := retries,
        delays := (List.range (retries - 1)).map
          (fun k => initialDelay * 2 ^ k) } := by
  have h := callWithRetryGo_all_fail fn retries errs (retries - 1) 0
    initialDelay [] none (by omega)
    (by intro j hj; simpa using hfail j (by omega))
  unfold callWithRetry
  rw [Nat.sub_zero] at h
  rw [h]
  simp

/-- Witness operation for C4: every attempt fails with a 503 status error. -/
def exhaustWitnessFn : Nat → Except JsValue Nat := fun _ =>
  .error (.obj (.fcons "status" (.num 503) .nil))

/-- Witness for C4 at retries = 3. -/
theorem callWithRetry_exhausts_transient_witness :
    callWithRetry exhaustWitnessFn 3 1000 =
      { result := .error (.obj (.fcons "status" (.num 503) .nil)), calls := 3,
        delays := [1000, 2000] } := by
  rw [callWithRetry_exhausts_transient exhaustWitnessFn 3 1000
    (fun _ => .obj (.fcons "status" (.num 503) .nil)) (by decide)
    (by
      intro j _
      refine ⟨rfl, ?_⟩
      show isLoadError (.obj (.fcons "status" (.num 503) .nil)) = true
      decide)]
  rfl

/-- C5: if the first invocation fails with an error classified permanent,
callWithRetry calls the operation exactly once, performs no delay, and
propagates that error unchanged. -/
theorem callWithRetry_permanent_first {T : Type}
    (fn : Nat → Except JsValue T) (retries initialDelay : Nat) (e : JsValue)
    (hr : 1 ≤ retries) (he : fn 0 = .error e)
    (hperm : isLoadError e = false) :
    callWithRetry fn retries initialDelay =
      { result := .error e, calls := 1, delays := [] } := by
  obtain ⟨m, hm⟩ : ∃ m, retries = m + 1 := ⟨retries - 1, by omega⟩
  subst hm
  unfold callWithRetry
  simp [callWithRetryGo, he, hperm]

/-- Witness operation for C5: a permanent bad-request error. -/
def permanentWitnessFn : Nat → Except JsValue Nat := fun _ =>
  .error (msgError "bad request")

/-- Witness for C5 at retries = 5. -/
theorem callWithRetry_permanent_first_witness :
    callWithRetry permanentWitnessFn 5 3000 =
      { result := .error (msgError "bad request"), calls := 1, delays := [] } := by
  rw [callWithRetry_permanent_first permanentWitnessFn 5 3000
    (msgError "bad request") (by decide) rfl (by decide)]

/- ===== C6: the transient classification ===== -/

/-- The claim's enumeration of transient signals: 503 as the top-level
status or code field, 503 as the wrapped error.code, UNAVAILABLE as the
wrapped error.status, or a textual overload marker in the error's message
text. -/
def transientPerClaim (e : JsValue) : Bool :=
  fieldNum503 e "status" || fieldNum503 e "code" || nestedCode503 e ||
  nestedStatusUnavailable e ||
  (match messageStr e with
   | some s => hasMarker s
   | none => false)

/-- The classification the code actually implements: the claim's signals,
plus — when the error carries no nonempty string message — the textual
markers searched in the JSON serialisation of the whole error value. -/
def transientAmended (e : JsValue) : Bool :=
  transientPerClaim e ||
  (match messageStr e with
   | some _ => false
   | none => hasMarker (jsStringify e))

/-- An error value with no message field whose only 503 text sits inside an
unrelated field: none of the claim's signals holds for it. -/
def jsonFallbackError : JsValue :=
  .obj (.fcons "detail" (.str "http 503") .nil)

/-- C6 counterexample: callWithRetry classifies jsonFallbackError as
transient (its JSON serialisation contains 503) although none of the
signals enumerated by the claim holds, refuting the claimed
if-and-only-if. -/
theorem isLoadError_claim_counterexample :
    isLoadError jsonFallbackError = true ∧
    transientPerClaim jsonFallbackError = false := by
  decide

/-- C6 (amended): callWithRetry classifies an error transient exactly when
one of the claim's signals holds, or — when the error has no nonempty
string message — when a textual marker (overloaded or 503) appears in the
JSON serialisation of the whole error value; every other error is
permanent. -/
theorem isLoadError_amended_spec (e : JsValue) :
    isLoadError e = transientAmended e := by
  unfold isLoadError transientAmended transientPerClaim jsMsg
  cases hm : messageStr e <;>
    simp [hm, Bool.or_comm, Bool.or_left_comm, Bool.or_assoc]

/- ===== C1: the empowerment block ===== -/

/-- Render options with every choice field left as the none sentinel. -/
def allNoneOptions : RenderOptions :=
  { category := "none", style := "none", colorPalette := "none",
    surfaceMaterial := "none", textileMaterial := "none",
    textileColor1 := "none", textileColor2 := "none", additionalPrompt := "",
    hiddenAIContext := "", isAutoFocus := true, cameraPreset := "CINEMATIC" }

/-- Render options with every choice field set to a concrete value. -/
def allConcreteOptions : RenderOptions :=
  { category := "wedding stage", style := "modern", colorPalette := "blush",
    surfaceMaterial := "marble", textileMaterial := "silk",
    textileColor1 := "ivory", textileColor2 := "gold", additionalPrompt := "",
    hiddenAIContext := "", isAutoFocus := false, cameraPreset := "CINEMATIC" }

/-- C1 counterexample: with all seven option fields none the empowerment
block holds 5 directives, not 7 — the two textile colour directives are
guarded by textileMaterial not being none. -/
theorem getEmpowermentPrompt_seven_counterexample :
    (empowermentDirectives allNoneOptions).length = 5 ∧
    (empowermentDirectives allNoneOptions).length ≠ 7 := by
  decide

/-- C1 (amended): if every option field equals none the returned block
holds exactly 5 directives (category, style, palette, surface material and
textile material; the two textile colour directives require a concrete
textile material) and is a nonempty string; if every field is concrete the
block is the empty string. -/
theorem getEmpowermentPrompt_spec (o : RenderOptions) :
    (o.category = "none" ∧ o.style = "none" ∧ o.colorPalette = "none" ∧
      o.surfaceMaterial = "none" ∧ o.textileMaterial = "none" ∧
      o.textileColor1 = "none" ∧ o.textileColor2 = "none" →
      (empowermentDirectives o).length = 5 ∧ getEmpowermentPrompt o ≠ "") ∧
    (o.category ≠ "none" ∧ o.style ≠ "none" ∧ o.colorPalette ≠ "none" ∧
      o.surfaceMaterial ≠ "none" ∧ o.textileMaterial ≠ "none" ∧
      o.textileColor1 ≠ "none" ∧ o.textileColor2 ≠ "none" →
      getEmpowermentPrompt o = "") := by
  constructor
  · rintro ⟨h1, h2, h3, h4, h5, _, _⟩
    have hd : empowermentDirectives o =
        [categoryDirective, styleDirective, paletteDirective, surfaceDirective,
          textileDirective] := by
      simp [empowermentDirectives, h1, h2, h3, h4, h5]
    refine ⟨by rw [hd]; rfl, ?_⟩
    rw [getEmpowermentPrompt, hd]
    simp
    decide
  · rintro ⟨h1, h2, h3, h4, h5, h6, h7⟩
    have hd : empowermentDirectives o = [] := by
      simp [empowermentDirectives, h1, h2, h3, h4, h5, h6, h7]
    rw [getEmpowermentPrompt, hd]
    simp

/-- Witness for C1 at the two concrete option records. -/
theorem getEmpowermentPrompt_spec_witness :
    ((empowermentDirectives allNoneOptions).length = 5 ∧
      getEmpowermentPrompt allNoneOptions ≠ "") ∧
    getEmpowermentPrompt allConcreteOptions = "" :=
  ⟨(getEmpowermentPrompt_spec allNoneOptions).1 (by decide),
    (getEmpowermentPrompt_spec allConcreteOptions).2 (by decide)⟩

/- ===== Helper lemmas about jsSetDedup ===== -/

theorem jsSetDedupAux_subset (l : List String) :
    ∀ seen x, x ∈ jsSetDedupAux seen l → x ∈ l := by
  induction l with
  | nil => intro seen x h; simp [jsSetDedupAux] at h
  | cons a l ih =>
    intro seen x h
    rw [jsSetDedupAux] at h
    by_cases ha : a ∈ seen
    · rw [if_pos ha] at h
      exact List.mem_cons_of_mem a (ih seen x h)
    · rw [if_neg ha] at h
      rcases List.mem_cons.mp h with h1 | h2
      · exact h1 ▸ List.mem_cons_self a l
      · exact List.mem_cons_of_mem a (ih (a :: seen) x h2)

theorem jsSetDedupAux_nodup (l : List String) :
    ∀ seen, (jsSetDedupAux seen l).Nodup ∧
      ∀ x ∈ jsSetDedupAux seen l, x ∉ seen := by
  induction l with
  | nil => intro seen; simp [jsSetDedupAux]
  | cons a l ih =>
    intro seen
    rw [jsSetDedupAux]
    by_cases ha : a ∈ seen
    · rw [if_pos ha]; exact ih seen
    · rw [if_neg ha]
      obtain ⟨hnd, hns⟩ := ih (a :: seen)
      refine ⟨List.nodup_cons.mpr ⟨?_, hnd⟩, ?_⟩
      · intro hmem
        exact (hns a hmem) (List.mem_cons_self a seen)
      · intro x hx
        rcases List.mem_cons.mp hx with h1 | h2
        · exact h1 ▸ ha
        · intro hxs
          exact hns x h2 (List.mem_cons_of_mem a hxs)

theorem jsSetDedup_nodup (l : List String) : (jsSetDedup l).Nodup :=
  (jsSetDedupAux_nodup l []).1

theorem jsSetDedup_subset (l : List String) : ∀ x ∈ jsSetDedup l, x ∈ l :=
  fun x h => jsSetDedupAux_subset l [] x h

theorem ratingBelowThree_iff (o : Option Nat) :
    ratingBelowThree o = true ↔ ∃ v, o = some v ∧ v < 3 := by
  cases o <;> simp [ratingBelowThree]

/- ===== C7: the learning-context queries ===== -/

/-- C7: on a connected datastore, examples are built from at most the 3
most-recent records matching category and style with rating exactly 5
(instruction texts concatenated), and constraints independently from at
most 10 records with rating < 3 for the category ignoring style and
excluding null tag sets, flattening their tags, de-duplicating and taking
the first 5 distinct values.  The conjuncts state: the 3-record cap, the
positive filter, descending recency order, dominance of the selected
records over every unselected matching record, completeness of the
selection split, the examples output, the 10-record cap, the negative
filter, the 5-tag cap, distinctness, tag provenance, and the constraints
output. -/
theorem getLearningContext_query_spec (db : List RenderRecord)
    (ins : SingleResult) (ue : Option String) (category style : String) :
    (positiveQuery db category style).length ≤ 3 ∧
    (∀ r ∈ positiveQuery db category style,
      r.category = category ∧ r.style = style ∧ r.rating = some 5) ∧
    List.Sorted recentFirst (positiveQuery db category style) ∧
    (∀ a ∈ positiveQuery db category style,
      ∀ b ∈ (sortedPositives db category style).drop 3,
        b.created_at ≤ a.created_at) ∧
    (∀ r ∈ db, posPred category style r = true →
      r ∈ positiveQuery db category style ∨
        r ∈ (sortedPositives db category style).drop 3) ∧
    (getLearningContext (.connected db ins ue) category style).examples =
      String.intercalate exampleSep
        ((positiveQuery db category style).map RenderRecord.master_prompt) ∧
    (negativeQuery db category).length ≤ 10 ∧
    (∀ r ∈ negativeQuery db category,
      r.category = category ∧ (∃ v, r.rating = some v ∧ v < 3) ∧
        r.feedback_tags ≠ none) ∧
    (constraintsList db category).length ≤ 5 ∧
    (constraintsList db category).Nodup ∧
    (∀ t ∈ constraintsList db category,
      ∃ r ∈ negativeQuery db category, t ∈ r.feedback_tags.getD []) ∧
    (getLearningContext (.connected db ins ue) category style).constraints =
      String.intercalate ", " (constraintsList db category) := by
  have hperm := List.perm_insertionSort recentFirst
    (db.filter (posPred category style))
  have hsorted : List.Sorted recentFirst (sortedPositives db category style) :=
    List.sorted_insertionSort recentFirst _
  have hposPred : ∀ r ∈ positiveQuery db category style,
      posPred category style r = true := by
    intro r hr
    have h1 : r ∈ sortedPositives db category style :=
      (List.take_sublist 3 _).subset hr
    have h2 : r ∈ db.filter (posPred category style) := hperm.mem_iff.mp h1
    exact (List.mem_filter.mp h2).2
  have hnegPred : ∀ r ∈ negativeQuery db category, negPred category r = true := by
    intro r hr
    have h1 : r ∈ db.filter (negPred category) :=
      (List.take_sublist 10 _).subset hr
    exact (List.mem_filter.mp h1).2
  refine ⟨List.length_take_le 3 _, ?_, ?_, ?_, ?_, ?_,
    List.length_take_le 10 _, ?_, List.length_take_le 5 _, ?_, ?_, ?_⟩
  · intro r hr
    have := hposPred r hr
    rw [posPred, decide_eq_true_eq] at this
    exact this
  · exact List.Pairwise.sublist (List.take_sublist 3 _) hsorted
  · have h := hsorted
    rw [← List.take_append_drop 3 (sortedPositives db category style)] at h
    exact fun a ha b hb => (List.pairwise_append.mp h).2.2 a ha b hb
  · intro r hrdb hp
    have h1 : r ∈ db.filter (posPred category style) :=
      List.mem_filter.mpr ⟨hrdb, hp⟩
    have h2 : r ∈ sortedPositives db category style := hperm.mem_iff.mpr h1
    rw [← List.take_append_drop 3 (sortedPositives db category style)] at h2
    exact List.mem_append.mp h2
  · rfl
  · intro r hr
    have := hnegPred r hr
    rw [negPred, Bool.and_eq_true, Bool.and_eq_true, decide_eq_true_eq,
      decide_eq_true_eq, ratingBelowThree_iff] at this
    exact ⟨this.1.1, this.1.2, this.2⟩
  · exact List.Nodup.sublist (List.take_sublist 5 _) (jsSetDedup_nodup _)
  · intro t ht
    have h1 : t ∈ commonComplaintsOf db category :=
      (List.take_sublist 5 _).subset ht
    have h2 := jsSetDedup_subset _ t h1
    rw [List.mem_flatMap] at h2
    obtain ⟨a, ha, hta⟩ := h2
    rw [List.mem_map] at ha
    obtain ⟨r, hr, hra⟩ := ha
    exact ⟨r, hr, hra ▸ hta⟩
  · rfl

/-- First-attempt success: one call, no delay (shared helper). -/
theorem callWithRetry_first_ok {T : Type} (fn : Nat → Except JsValue T)
    (retries delay : Nat) (v : T) (hr : 1 ≤ retries) (h : fn 0 = .ok v) :
    callWithRetry fn retries delay =
      { result := .ok v, calls := 1, delays := [] } := by
  obtain ⟨m, hm⟩ : ∃ m, retries = m + 1 := ⟨retries - 1, by omega⟩
  subst hm
  unfold callWithRetry
  simp [callWithRetryGo, h]

/- ===== C8: learning-context retrieval never fails ===== -/

/-- C8: getLearningContext never propagates a failure — with zero matching
high-rated records the examples are the empty string, with zero low-rated
tagged records the constraints are the empty string, and when the query
collaborator throws the function returns the empty context instead of
raising. -/
theorem getLearningContext_degrades (db : List RenderRecord)
    (ins : SingleResult) (ue : Option String) (category style msg : String) :
    (db.filter (posPred category style) = [] →
      (getLearningContext (.connected db ins ue) category style).examples = "") ∧
    (db.filter (negPred category) = [] →
      (getLearningContext (.connected db ins ue) category style).constraints = "") ∧
    getLearningContext (.failing msg) category style =
      { examples := "", constraints := "" } := by
  refine ⟨?_, ?_, rfl⟩
  · intro h
    have hpq : positiveQuery db category style = [] := by
      rw [positiveQuery, sortedPositives, h]
      rfl
    calc (getLearningContext (.connected db ins ue) category style).examples
        = String.intercalate exampleSep
            ((positiveQuery db category style).map RenderRecord.master_prompt) := rfl
      _ = "" := by rw [hpq]; rfl
  · intro h
    have hnq : negativeQuery db category = [] := by
      rw [negativeQuery, h]
      rfl
    calc (getLearningContext (.connected db ins ue) category style).constraints
        = String.intercalate ", " (constraintsList db category) := rfl
      _ = "" := by rw [constraintsList, commonComplaintsOf, hnq]; rfl

/-- Witness for C8 on the empty datastore and a throwing client. -/
theorem getLearningContext_degrades_witness :
    (getLearningContext (.connected [] { data := none, error := none } none)
      "stage" "modern").examples = "" ∧
    (getLearningContext (.connected [] { data := none, error := none } none)
      "stage" "modern").constraints = "" ∧
    getLearningContext (.failing "network down") "stage" "modern" =
      { examples := "", constraints := "" } :=
  ⟨(getLearningContext_degrades [] { data := none, error := none } none
      "stage" "modern" "network down").1 rfl,
    (getLearningContext_degrades [] { data := none, error := none } none
      "stage" "modern" "network down").2.1 rfl,
    (getLearningContext_degrades [] { data := none, error := none } none
      "stage" "modern" "network down").2.2⟩

/- ===== C2: offline (unconfigured persistence) mode ===== -/

/-- C2 counterexample: with the persistence collaborator unconfigured, the
mock single() chain yields the placeholder row id offline-mode-id, so
saveRenderHistory returns that string and not the claimed absent-identifier
sentinel null. -/
theorem saveRenderHistory_offline_counterexample :
    saveRenderHistory SupabaseClient.offlineMock "prompt" =
      some "offline-mode-id" ∧
    saveRenderHistory SupabaseClient.offlineMock "prompt" ≠ none :=
  ⟨rfl, fun h => Option.noConfusion h⟩

/-- C2 (amended): when the persistence collaborator is unconfigured
(offline mock), saveRenderHistory returns the placeholder identifier
offline-mode-id — never the absent sentinel null — for every master
prompt; getLearningContext returns empty examples and constraints; and a
generation call whose remote render succeeds with an image part still
completes, returning that image together with the placeholder identifier. -/
theorem offline_mode_spec (masterPrompt : String) (options : RenderOptions)
    (img : FileData) (flash render : String → Nat → Except JsValue GenResponse)
    (resp : GenResponse) (d : InlinePart)
    (hrender : ∀ p, render p 0 = .ok resp)
    (himg : respFirstImage resp = some d) :
    saveRenderHistory SupabaseClient.offlineMock masterPrompt =
      some "offline-mode-id" ∧
    getLearningContext SupabaseClient.offlineMock options.category
      options.style = { examples := "", constraints := "" } ∧
    generateWeddingRender true flash render SupabaseClient.offlineMock img
      options =
      .ok { imageUrl := "data:" ++ d.mimeType ++ ";base64," ++ d.data,
            renderId := some "offline-mode-id" } := by
  refine ⟨rfl, rfl, ?_⟩
  unfold generateWeddingRender
  rw [if_neg (by simp)]
  have hcw := callWithRetry_first_ok
    (render (buildMasterPrompt flash SupabaseClient.offlineMock options))
    5 3000 resp (by omega) (hrender _)
  simp only [hcw, himg]
  rfl

/-- The inline image payload of the witness response. -/
def imageData : InlinePart :=
  { mimeType := "image/png", data := "QUJD" }

/-- A render response carrying one image part. -/
def imageResponse : GenResponse :=
  { candidates := some
      [{ content := some
          { parts := some [{ text := none, inlineData := some imageData }] } }],
    text := none }

/-- Witness for C2: a render model that succeeds immediately with an image,
an always-failing flash model, offline client. -/
theorem offline_mode_spec_witness :
    saveRenderHistory SupabaseClient.offlineMock "p" = some "offline-mode-id" ∧
    getLearningContext SupabaseClient.offlineMock allConcreteOptions.category
      allConcreteOptions.style = { examples := "", constraints := "" } ∧
    generateWeddingRender true (fun _ _ => .error (msgError "down"))
      (fun _ _ => .ok imageResponse) SupabaseClient.offlineMock
      { base64 := "", mimeType := "image/png" } allConcreteOptions =
      .ok { imageUrl := "data:image/png;base64,QUJD",
            renderId := some "offline-mode-id" } :=
  offline_mode_spec "p" allConcreteOptions
    { base64 := "", mimeType := "image/png" }
    (fun _ _ => .error (msgError "down")) (fun _ _ => .ok imageResponse)
    imageResponse imageData
    (fun _ => rfl) rfl

/- ===== C9, C10: feedback submission ===== -/

/-- C9: submitFeedback propagates exactly the error the update collaborator
reports (for any identifier, rating and tags) and completes without error
when none is reported; a thrown update-chain failure also propagates. -/
theorem submitFeedback_propagates (db : List RenderRecord)
    (ins : SingleResult) (ue : Option String) (renderId : String)
    (rating : Nat) (tags : List String) (m : String) :
    (∀ e, ue = some e →
      submitFeedback (.connected db ins ue) renderId rating tags = .error e) ∧
    (ue = none →
      submitFeedback (.connected db ins ue) renderId rating tags = .ok ()) ∧
    submitFeedback (.failing m) renderId rating tags = .error m := by
  refine ⟨?_, ?_, rfl⟩
  · intro e he
    subst he
    rfl
  · intro h
    subst h
    rfl

/-- Witness for C9: an update error for an unknown id propagates; a clean
update resolves. -/
theorem submitFeedback_propagates_witness :
    submitFeedback (.connected [] { data := none, error := none }
      (some "unknown record id")) "r1" 5 ["dark"] = .error "unknown record id" ∧
    submitFeedback (.connected [] { data := none, error := none } none)
      "r1" 5 ["dark"] = .ok () :=
  ⟨(submitFeedback_propagates [] { data := none, error := none }
      (some "unknown record id") "r1" 5 ["dark"] "m").1 "unknown record id" rfl,
    (submitFeedback_propagates [] { data := none, error := none } none
      "r1" 5 ["dark"] "m").2.1 rfl⟩

/-- C10: with the offline mock client the update chain always yields a null
error, so submitFeedback resolves successfully for every record identifier
(including ones referencing no record), rating and tag set — feedback
failures are never visible to the caller in offline mode. -/
theorem submitFeedback_offline_always_ok (renderId : String) (rating : Nat)
    (tags : List String) :
    submitFeedback SupabaseClient.offlineMock renderId rating tags = .ok () :=
  rfl

/-- A five-star record for the witness datastore. -/
def recHigh : RenderRecord :=
  { id := "a", category := "stage", style := "modern",
    master_prompt := "golden arch prompt", rating := some 5,
    feedback_tags := none, created_at := 10 }

/-- A low-rated tagged record for the witness datastore. -/
def recLow : RenderRecord :=
  { id := "b", category := "stage", style := "rustic", master_prompt := "pb",
    rating := some 2, feedback_tags := some ["dark", "blurry"],
    created_at := 20 }

def sampleDb : List RenderRecord := [recHigh, recLow]

/-- Witness for C7 on a concrete two-record datastore. -/
theorem getLearningContext_query_spec_witness :
    (positiveQuery sampleDb "stage" "modern").length ≤ 3 ∧
    (getLearningContext (.connected sampleDb { data := none, error := none }
        none) "stage" "modern").examples =
      String.intercalate exampleSep
        ((positiveQuery sampleDb "stage" "modern").map
          RenderRecord.master_prompt) ∧
    (getLearningContext (.connected sampleDb { data := none, error := none }
        none) "stage" "modern").constraints =
      String.intercalate ", " (constraintsList sampleDb "stage") :=
  ⟨(getLearningContext_query_spec sampleDb { data := none, error := none }
      none "stage" "modern").1,
    (getLearningContext_query_spec sampleDb { data := none, error := none }
      none "stage" "modern").2.2.2.2.2.1,
    (getLearningContext_query_spec sampleDb { data := none, error := none }
      none "stage" "modern").2.2.2.2.2.2.2.2.2.2.2⟩
